import Mathlib

/-!
Shallow embedding of the Mimir tracker (apps/Tracker/src): storage.rs,
functions.rs and server.rs, with theorems checking the specification's
claims against it.

Conventions of the embedding:
* byte strings are `List Nat` (each element a byte value);
* Rust machine integers are `Nat`/`Int` with explicit wrapping casts
  (`u16_of_i64` models `as u16`, etc.);
* SQLite column values are modelled by `Value` (blob / int / NULL);
* fallible Rust code (`io::Error`, panics via `expect`/`unwrap`) is
  modelled with `Except Err`;
* the wall clock (`get_utc_time`) is passed in as an explicit `now`
  parameter (a `u64` number of seconds).
-/

namespace Mimir

/-- Rust `x as u64` for an `i64` value `x`: reinterpret two's complement. -/
def u64_of_i64 (x : Int) : Nat := (x % (2 ^ 64)).toNat

/-- Rust `x as u32` for an `i64` value `x`: keep the low 32 bits. -/
def u32_of_i64 (x : Int) : Nat := (x % (2 ^ 32)).toNat

/-- Rust `x as u16` for an `i64` value `x`: keep the low 16 bits. -/
def u16_of_i64 (x : Int) : Nat := (x % (2 ^ 16)).toNat

/-- Rust `x as u8` for an `i64` value `x`: keep the low 8 bits. -/
def u8_of_i64 (x : Int) : Nat := (x % (2 ^ 8)).toNat

/-- Wrap an unbounded integer into the `i64` range (two's complement). -/
def i64_wrap (x : Int) : Int := (x + 2 ^ 63) % 2 ^ 64 - 2 ^ 63

/-- Rust `n as i64` for a `u64` value `n` (used for `get_utc_time() as i64`). -/
def i64_of_u64 (n : Nat) : Int := i64_wrap n

/-- A SQLite column value: blob, integer, or NULL.  (The `clients` table
stores only blobs and integers; NULL arises from an unbound parameter.) -/
inductive Value where
  | blob (b : List Nat)
  | int (i : Int)
  | null
deriving DecidableEq, Repr

/-- One row of the `clients` table, one field per column, in the column
order of `SQL_INSERT_IP`: `(id, ip, signature, port, priority, client,
timestamp, ttl)`. -/
structure Row where
  id : Value
  ip : Value
  signature : Value
  port : Value
  priority : Value
  client : Value
  timestamp : Value
  ttl : Value
deriving DecidableEq, Repr

/-- `sqlite::State`: the result of a successful `statement.next()`. -/
inductive DbState where
  | row
  | done
deriving DecidableEq, Repr

/-- Outcome of `statement.next()` on the one DML statement a
`save_address` call executes: `Except.error` models the `Err` case that
the code turns into a panic via `.expect("Error in DB")`.  This is the
black-box storage engine's contribution, passed in as an oracle. -/
abbrev StepOutcome := Except Unit DbState

/-- Errors and panics observable from one datagram's processing.
`unexpectedEof` is `io::ErrorKind::UnexpectedEof` from cursor reads,
`other` is `io::ErrorKind::Other` (bad signature / unknown command),
`writeZero` is `io::ErrorKind::WriteZero` from a full response buffer,
and `panic` models a Rust panic (`expect`/`unwrap`). -/
inductive Err where
  | unexpectedEof
  | other
  | writeZero
  | panic
deriving DecidableEq, Repr

def DEFAULT_PORT : Nat := 5050
def DEFAULT_TTL : Nat := 86400

/-- The parameter slots of a prepared statement: slot index to bound
value; unbound slots are NULL. -/
def emptySlots : Nat → Value := fun _ => Value.null

/-- `statement.bind((i, v))`: set slot `i` to `v` (rebinding overwrites). -/
def bindSlot (slots : Nat → Value) (i : Nat) (v : Value) : Nat → Value :=
  fun j => if j = i then v else slots j

/-- The bind sequence of `save_new_address` (storage.rs lines 41-48),
slot for slot as in the source: note that line 47 binds the timestamp to
slot 7 and line 48 then binds `DEFAULT_TTL` to slot 7 as well, so slot 7
ends up holding `DEFAULT_TTL` and slot 8 is never bound. -/
def save_new_address_slots (id ip signature : List Nat)
    (port priority client : Nat) (now : Nat) : Nat → Value :=
  bindSlot (bindSlot (bindSlot (bindSlot (bindSlot (bindSlot (bindSlot (bindSlot
    emptySlots
    1 (Value.blob id))
    2 (Value.blob ip))
    3 (Value.blob signature))
    4 (Value.int port))
    5 (Value.int priority))
    6 (Value.int client))
    7 (Value.int (i64_of_u64 now)))
    7 (Value.int DEFAULT_TTL)

/-- The row `SQL_INSERT_IP` inserts: column `k` of
`(id, ip, signature, port, priority, client, timestamp, ttl)` takes the
value of parameter slot `k`.
Modelled from the spec: the table schema lives in `create_db.sql`
(included with `include_str!`, not present under src/); section 6 of the
spec lists the columns `{identity, address, signature, port, priority,
clientTag, registeredAt, ttlSeconds}` with no further constraints, so an
unbound parameter simply stores NULL. -/
def insertedRow (slots : Nat → Value) : Row :=
  { id := slots 1, ip := slots 2, signature := slots 3, port := slots 4,
    priority := slots 5, client := slots 6, timestamp := slots 7, ttl := slots 8 }

/-- Does a row match the `WHERE id = ? AND ip = ?` test of
`is_address_saved`? -/
def pairMatch (id ip : List Nat) (r : Row) : Bool :=
  decide (r.id = Value.blob id) && decide (r.ip = Value.blob ip)

/-- storage.rs `is_address_saved`: does any row exist for `(id, ip)`?
(The statement's own `next()` is modelled as succeeding; only the DML
step of a save is given a failure oracle.) -/
def is_address_saved (rows : List Row) (id ip : List Nat) : Bool :=
  rows.any (pairMatch id ip)

/-- storage.rs `save_new_address`: run `SQL_INSERT_IP` with the bind
sequence above.  `State::Done` returns `DEFAULT_TTL`, `State::Row`
returns 300 (for an INSERT the statement produced no completed write),
and an `Err` from `next()` is a panic (`.expect("Error in DB")`). -/
def save_new_address (o : StepOutcome) (rows : List Row)
    (id ip signature : List Nat) (port priority client : Nat) (now : Nat) :
    Except Err (List Row × Nat) :=
  match o with
  | Except.error _ => Except.error Err.panic
  | Except.ok DbState.done =>
      Except.ok (rows ++ [insertedRow (save_new_address_slots id ip signature port priority client now)],
        DEFAULT_TTL)
  | Except.ok DbState.row => Except.ok (rows, 300)

/-- Does a row match the `WHERE id=? AND ip=? AND client=?` clause of
`SQL_UPDATE_IP`? -/
def pairClientMatch (id ip : List Nat) (client : Nat) (r : Row) : Bool :=
  pairMatch id ip r && decide (r.client = Value.int client)

/-- storage.rs `update_address`: run `SQL_UPDATE_IP`, which sets
`port, priority, timestamp, ttl` on every row matching
`id=? AND ip=? AND client=?` (slots bound on lines 58-64, all correctly
numbered here).  `Done` returns `DEFAULT_TTL` whether or not any row
matched; an `Err` from `next()` is a panic. -/
def update_address (o : StepOutcome) (rows : List Row)
    (id ip : List Nat) (port priority client : Nat) (now : Nat) :
    Except Err (List Row × Nat) :=
  match o with
  | Except.error _ => Except.error Err.panic
  | Except.ok DbState.done =>
      Except.ok (rows.map (fun r =>
        if pairClientMatch id ip client r then
          { r with port := Value.int port, priority := Value.int priority,
                   timestamp := Value.int (i64_of_u64 now), ttl := Value.int DEFAULT_TTL }
        else r), DEFAULT_TTL)
  | Except.ok DbState.row => Except.ok (rows, 300)

/-- storage.rs `save_address` (the `Storage` impl): insert when no row
exists for `(id, ip)`, otherwise update. -/
def save_address (o : StepOutcome) (rows : List Row)
    (id ip signature : List Nat) (port priority client : Nat) (now : Nat) :
    Except Err (List Row × Nat) :=
  if ! is_address_saved rows id ip then
    save_new_address o rows id ip signature port priority client now
  else
    update_address o rows id ip port priority client now

/-- The `Addr` struct of storage.rs. -/
structure Addr where
  ip : List Nat
  signature : List Nat
  port : Nat
  priority : Nat
  client : Nat
  ttl : Nat
deriving DecidableEq, Repr

/-- `statement.read::<i64>` of a column: an integer column reads back,
anything else (in particular NULL) is a read failure, which the source
handles with `unwrap_or(default)`. -/
def read_int : Value → Option Int
  | Value.int i => some i
  | _ => none

/-- `statement.read::<Vec<u8>>(..).unwrap()` of a column: a blob reads
back, anything else is modelled as the panicking `unwrap` (never reached
on rows this program writes). -/
def read_blob : Value → Except Err (List Nat)
  | Value.blob b => Except.ok b
  | _ => Except.error Err.panic

/-- The row loop of storage.rs `select_addresses` (lines 77-92): read
the seven columns (with the source's `unwrap_or` defaults), compute
`expire = time + ttl` in `i64`, skip the row when
`cur_time > expire as u64`, otherwise push an `Addr` whose wire `ttl` is
the literal 30 of line 91. -/
def select_rows (cur_time : Nat) : List Row → Except Err (List Addr)
  | [] => Except.ok []
  | r :: rest => do
      let ip ← read_blob r.ip
      let signature ← read_blob r.signature
      let port : Int := (read_int r.port).getD (DEFAULT_PORT : Int)
      let priority : Int := (read_int r.priority).getD 0
      let client : Int := (read_int r.client).getD 0
      let time : Int := (read_int r.timestamp).getD 0
      let ttl : Int := (read_int r.ttl).getD (DEFAULT_TTL : Int)
      let expire : Int := i64_wrap (time + ttl)
      let tail ← select_rows cur_time rest
      if cur_time > u64_of_i64 expire then
        pure tail
      else
        pure ({ ip := ip, signature := signature, port := u16_of_i64 port,
                priority := u8_of_i64 priority, client := u32_of_i64 client,
                ttl := 30 } :: tail)

/-- storage.rs `select_addresses`: `SQL_SELECT_IPS` restricts to rows
with `id = ?`, then the row loop above runs over them in order. -/
def select_addresses (rows : List Row) (id : List Nat) (cur_time : Nat) :
    Except Err (List Addr) :=
  select_rows cur_time (rows.filter (fun r => decide (r.id = Value.blob id)))

/-- storage.rs `get_addresses` (the `Storage` impl). -/
def get_addresses (rows : List Row) (id : List Nat) (cur_time : Nat) :
    Except Err (List Addr) :=
  select_addresses rows id cur_time

/-! ## functions.rs -/

/-- `ed25519_dalek::PublicKey::from_bytes`: fails on any byte string
whose length is not 32.  (dalek additionally rejects some non-canonical
32-byte strings; the model accepts those, which only makes the set of
inputs it panics on smaller — the wrong-length failure is what the
claims exercise.) -/
def public_key_from_bytes (b : List Nat) : Option (List Nat) :=
  if b.length = 32 then some b else none

/-- `ed25519_dalek::Signature::from_bytes`: fails on any byte string
whose length is not 64 (same abstraction note as for the public key). -/
def signature_from_bytes (b : List Nat) : Option (List Nat) :=
  if b.length = 64 then some b else none

/-- Rust `Result::unwrap` / `Option::unwrap`: panics on the empty case. -/
def unwrapOpt {α : Type} : Option α → Except Err α
  | some a => Except.ok a
  | none => Except.error Err.panic

/-- functions.rs `check_signature`: parse the key and the signature with
`.unwrap()` (lines 5-6), then verify.  The cryptographic primitive
itself is the spec's black box, passed in as `verify`. -/
def check_signature (verify : List Nat → List Nat → List Nat → Bool)
    (public_key signature data : List Nat) : Except Err Bool := do
  let pk ← unwrapOpt (public_key_from_bytes public_key)
  let s ← unwrapOpt (signature_from_bytes signature)
  pure (verify pk s data)

/-! ## server.rs -/

/-- Big-endian value of a byte list (byteorder's `BigEndian`). -/
def beNat (bs : List Nat) : Nat := bs.foldl (fun a b => a * 256 + b) 0

/-- The `n` big-endian bytes of `v` (the bytes `write_u16/u32/u64`
emit). -/
def beBytes : Nat → Nat → List Nat
  | 0, _ => []
  | n + 1, v => v / 256 ^ n % 256 :: beBytes n v

/-- `Cursor::read_u8` (byteorder): one byte or `UnexpectedEof`. -/
def read_u8 (l : List Nat) : Except Err (Nat × List Nat) :=
  match l with
  | [] => Except.error Err.unexpectedEof
  | b :: rest => Except.ok (b, rest)

/-- `Cursor::read_exact`: exactly `n` bytes or `UnexpectedEof`. -/
def read_exact (n : Nat) (l : List Nat) : Except Err (List Nat × List Nat) :=
  if n ≤ l.length then Except.ok (l.take n, l.drop n)
  else Except.error Err.unexpectedEof

/-- `read_u16::<BigEndian>`. -/
def read_u16 (l : List Nat) : Except Err (Nat × List Nat) := do
  let (bs, rest) ← read_exact 2 l
  pure (beNat bs, rest)

/-- `read_u32::<BigEndian>`. -/
def read_u32 (l : List Nat) : Except Err (Nat × List Nat) := do
  let (bs, rest) ← read_exact 4 l
  pure (beNat bs, rest)

/-- The fixed response buffer of server.rs line 24: `[0u8; 1024]`. -/
def RESPONSE_LEN : Nat := 1024

/-- `write_all` (and the `write_uN` helpers built on it) on
`Cursor<&mut [u8]>`: append when the bytes fit in the remaining buffer,
otherwise fail with `WriteZero` (a partial write may land in the buffer
but the datagram is then never sent, so only the written prefix on
success is observable). -/
def writeBytes (w bs : List Nat) : Except Err (List Nat) :=
  if w.length + bs.length ≤ RESPONSE_LEN then Except.ok (w ++ bs)
  else Except.error Err.writeZero

/-- The record loop of server.rs lines 81-88: per `Addr`, write the ip
and signature blobs, `port:u16`, `priority:u8`, `client:u32`,
`ttl:u64`. -/
def write_addrs (w : List Nat) : List Addr → Except Err (List Nat)
  | [] => Except.ok w
  | a :: rest => do
      let w1 ← writeBytes w a.ip
      let w2 ← writeBytes w1 a.signature
      let w3 ← writeBytes w2 (beBytes 2 a.port)
      let w4 ← writeBytes w3 [a.priority]
      let w5 ← writeBytes w4 (beBytes 4 a.client)
      let w6 ← writeBytes w5 (beBytes 8 a.ttl)
      write_addrs w6 rest

/-- server.rs lines 46-50: the common request header
`version:u8, nonce:u32, command:u8, identity:32 bytes`; returns the rest
of the datagram as well. -/
def parseHeader (data : List Nat) :
    Except Err (Nat × Nat × Nat × List Nat × List Nat) := do
  let (version, d1) ← read_u8 data
  let (nonce, d2) ← read_u32 d1
  let (command, d3) ← read_u8 d2
  let (id, d4) ← read_exact 32 d3
  pure (version, nonce, command, id, d4)

/-- server.rs lines 55-61: the register payload
`port:u16, priority:u8, clientTag:u32, address:16 bytes,
signature:64 bytes`. -/
def parseRegisterPayload (d : List Nat) :
    Except Err (Nat × Nat × Nat × List Nat × List Nat) := do
  let (port, p1) ← read_u16 d
  let (priority, p2) ← read_u8 p1
  let (client, p3) ← read_u32 p2
  let (ip, p4) ← read_exact 16 p3
  let (signature, _) ← read_exact 64 p4
  pure (port, priority, client, ip, signature)

/-- server.rs `process_message`: decode, dispatch on the command byte,
gate registrations on `check_signature`, run the store operation, and
encode the response into the 1024-byte buffer.  The returned pair is
(the `Result` of the function — `Ok` carries exactly the bytes the loop
then sends with `send_to`, `Err` means no datagram is sent — , the
store's rows afterwards).  `verify` is the signature primitive, `o` the
storage engine's step oracle for the (at most one) DML statement, and
`now` the current `get_utc_time()`. -/
def process_message (verify : List Nat → List Nat → List Nat → Bool)
    (o : StepOutcome) (rows : List Row) (now : Nat) (data : List Nat) :
    Except Err (List Nat) × List Row :=
  match parseHeader data with
  | Except.error e => (Except.error e, rows)
  | Except.ok (_version, nonce, command, id, d4) =>
    match command with
    | 0 =>
      match parseRegisterPayload d4 with
      | Except.error e => (Except.error e, rows)
      | Except.ok (port, priority, client, ip, signature) =>
        match check_signature verify id signature ip with
        | Except.error e => (Except.error e, rows)
        | Except.ok false => (Except.error Err.other, rows)
        | Except.ok true =>
          match save_address o rows id ip signature port priority client now with
          | Except.error e => (Except.error e, rows)
          | Except.ok (rows2, ttl) =>
            match (do
                let w1 ← writeBytes [] (beBytes 4 nonce)
                let w2 ← writeBytes w1 [command]
                writeBytes w2 (beBytes 8 ttl) : Except Err (List Nat)) with
            | Except.error e => (Except.error e, rows2)
            | Except.ok w => (Except.ok w, rows2)
    | 1 =>
      match select_addresses rows id now with
      | Except.error e => (Except.error e, rows)
      | Except.ok results =>
        match (do
            let w1 ← writeBytes [] (beBytes 4 nonce)
            let w2 ← writeBytes w1 [command]
            let w3 ← writeBytes w2 [results.length % 256]
            write_addrs w3 results : Except Err (List Nat)) with
        | Except.error e => (Except.error e, rows)
        | Except.ok w => (Except.ok w, rows)
    | _ => (Except.error Err.other, rows)

/-- A full register datagram as a client encodes it:
`version, nonce:u32, command 0, identity, port:u16, priority:u8,
clientTag:u32, address:16, signature:64` (125 bytes when the blobs have
their wire lengths). -/
def encodeRegister (ver nonce : Nat) (id : List Nat)
    (port priority client : Nat) (ip sig : List Nat) : List Nat :=
  ver :: beBytes 4 nonce ++ 0 :: id ++
    (beBytes 2 port ++ priority :: beBytes 4 client ++ ip ++ sig)

/-- A full resolve datagram: `version, nonce:u32, command 1, identity`. -/
def encodeResolve (ver nonce : Nat) (id : List Nat) : List Nat :=
  ver :: beBytes 4 nonce ++ 1 :: id

/-! ## Derived notions used to state the claims -/

/-- The byte content of a blob value (only applied to blobs below). -/
def blobOf : Value → List Nat
  | Value.blob b => b
  | _ => []

/-- `registeredAt` as the select loop reads it:
`statement.read(5).unwrap_or(0)`. -/
def rowTime (r : Row) : Int := (read_int r.timestamp).getD 0

/-- `ttlSeconds` as the select loop reads it:
`statement.read(6).unwrap_or(DEFAULT_TTL)`. -/
def rowTtl (r : Row) : Int := (read_int r.ttl).getD (DEFAULT_TTL : Int)

/-- The liveness test of storage.rs line 88: the row survives unless
`cur_time > (time + ttl) as u64`. -/
def liveAt (cur : Nat) (r : Row) : Bool :=
  ! decide (cur > u64_of_i64 (i64_wrap (rowTime r + rowTtl r)))

/-- The `Addr` the select loop builds from a surviving row. -/
def rowToAddr (r : Row) : Addr :=
  { ip := blobOf r.ip, signature := blobOf r.signature,
    port := u16_of_i64 ((read_int r.port).getD (DEFAULT_PORT : Int)),
    priority := u8_of_i64 ((read_int r.priority).getD 0),
    client := u32_of_i64 ((read_int r.client).getD 0),
    ttl := 30 }

/-- Is the value a blob of the given length? -/
def isBlobOfLength (n : Nat) : Value → Bool
  | Value.blob b => decide (b.length = n)
  | _ => false

/-- Well-formedness of a stored row: the blob columns hold blobs of
their wire lengths, the timestamp is a non-negative integer, the ttl is
NULL or a non-negative integer, and `timestamp + ttl` stays in `i64`
range (every value this program ever writes satisfies all of this). -/
def wfRow (r : Row) : Bool :=
  (match r.id with | Value.blob _ => true | _ => false) &&
  isBlobOfLength 16 r.ip && isBlobOfLength 64 r.signature &&
  (match r.timestamp with | Value.int t => decide (0 ≤ t) | _ => false) &&
  (match r.ttl with | Value.int v => decide (0 ≤ v) | Value.null => true | _ => false) &&
  decide (rowTime r + rowTtl r < 2 ^ 63)

lemma wfRow_split (r : Row) (h : wfRow r = true) :
    ((match r.id with | Value.blob _ => true | _ => false) = true) ∧
    isBlobOfLength 16 r.ip = true ∧ isBlobOfLength 64 r.signature = true ∧
    ((match r.timestamp with | Value.int t => decide (0 ≤ t) | _ => false) = true) ∧
    ((match r.ttl with | Value.int v => decide (0 ≤ v) | Value.null => true | _ => false) = true) ∧
    rowTime r + rowTtl r < 2 ^ 63 := by
  unfold wfRow at h
  simp only [Bool.and_eq_true, decide_eq_true_eq] at h
  exact ⟨h.1.1.1.1.1, h.1.1.1.1.2, h.1.1.1.2, h.1.1.2, h.1.2, h.2⟩

lemma wfRow_id (r : Row) (h : wfRow r = true) : ∃ b, r.id = Value.blob b := by
  have h1 := (wfRow_split r h).1
  cases hv : r.id <;> rw [hv] at h1 <;> simp_all

lemma wfRow_ip (r : Row) (h : wfRow r = true) :
    ∃ b, b.length = 16 ∧ r.ip = Value.blob b := by
  have h1 := (wfRow_split r h).2.1
  cases hv : r.ip <;> rw [hv] at h1 <;> simp_all [isBlobOfLength]

lemma wfRow_sig (r : Row) (h : wfRow r = true) :
    ∃ b, b.length = 64 ∧ r.signature = Value.blob b := by
  have h1 := (wfRow_split r h).2.2.1
  cases hv : r.signature <;> rw [hv] at h1 <;> simp_all [isBlobOfLength]

lemma wfRow_time (r : Row) (h : wfRow r = true) : 0 ≤ rowTime r := by
  have h1 := (wfRow_split r h).2.2.2.1
  cases hv : r.timestamp <;> rw [hv] at h1 <;> simp_all [rowTime, read_int]

lemma wfRow_ttl (r : Row) (h : wfRow r = true) : 0 ≤ rowTtl r := by
  have h1 := (wfRow_split r h).2.2.2.2.1
  cases hv : r.ttl <;> rw [hv] at h1 <;> simp_all [rowTtl, read_int, DEFAULT_TTL]

lemma wfRow_sum (r : Row) (h : wfRow r = true) :
    rowTime r + rowTtl r < 2 ^ 63 :=
  (wfRow_split r h).2.2.2.2.2

/-- Under well-formedness the liveness test is exactly the spec's
`now <= registeredAt + ttlSeconds`. -/
lemma liveAt_iff (cur : Nat) (r : Row) (h : wfRow r = true) :
    liveAt cur r = true ↔ (cur : Int) ≤ rowTime r + rowTtl r := by
  have h0 := wfRow_time r h
  have h1 := wfRow_ttl r h
  have h2 := wfRow_sum r h
  unfold liveAt u64_of_i64 i64_wrap
  simp only [gt_iff_lt, Bool.not_eq_eq_eq_not, Bool.not_true, decide_eq_false_iff_not, not_lt]
  omega

/-- The select loop on well-formed rows: it returns exactly the live
rows, in order, mapped to their `Addr`s. -/
lemma select_rows_of_wf (cur : Nat) (l : List Row) (h : ∀ r ∈ l, wfRow r = true) :
    select_rows cur l = Except.ok ((l.filter (liveAt cur)).map rowToAddr) := by
  induction l with
  | nil => rfl
  | cons r rest ih =>
    have hr := h r (by simp)
    have hrest : ∀ x ∈ rest, wfRow x = true := fun x hx => h x (by simp [hx])
    obtain ⟨bip, hbiplen, hbip⟩ := wfRow_ip r hr
    obtain ⟨bsig, hbsiglen, hbsig⟩ := wfRow_sig r hr
    simp only [select_rows, hbip, hbsig, read_blob, bind, Except.bind, pure, Except.pure,
      ih hrest]
    by_cases hlive : u64_of_i64 (i64_wrap ((read_int r.timestamp).getD 0 +
        (read_int r.ttl).getD (DEFAULT_TTL : Int))) < cur
    · rw [if_pos hlive]
      have hl : liveAt cur r = false := by
        simp [liveAt, rowTime, rowTtl, hlive]
      simp [List.filter_cons, hl]
    · rw [if_neg hlive]
      have hl : liveAt cur r = true := by
        simp [liveAt, rowTime, rowTtl, hlive]
      simp [List.filter_cons, hl, rowToAddr, blobOf, hbip, hbsig]

/-- `select_addresses` on a well-formed store. -/
lemma select_addresses_of_wf (rows : List Row) (id : List Nat) (cur : Nat)
    (h : ∀ r ∈ rows, wfRow r = true) :
    select_addresses rows id cur =
      Except.ok ((((rows.filter (fun r => decide (r.id = Value.blob id))).filter
        (liveAt cur))).map rowToAddr) := by
  unfold select_addresses
  exact select_rows_of_wf cur _ (fun r hr => h r (List.mem_filter.mp hr).1)

/-- Every `Addr` a successful select returns carries the hard-coded wire
TTL 30 of storage.rs line 91, whatever the row stores. -/
lemma select_rows_ttl (cur : Nat) (l : List Row) (res : List Addr)
    (h : select_rows cur l = Except.ok res) : ∀ a ∈ res, a.ttl = 30 := by
  induction l generalizing res with
  | nil =>
    simp only [select_rows, Except.ok.injEq] at h
    subst h
    simp
  | cons r rest ih =>
    simp only [select_rows, bind, Except.bind, pure, Except.pure] at h
    cases h1 : read_blob r.ip with
    | error e => simp [h1] at h
    | ok bip =>
      simp only [h1] at h
      cases h2 : read_blob r.signature with
      | error e => simp [h2] at h
      | ok bsig =>
        simp only [h2] at h
        cases h3 : select_rows cur rest with
        | error e => simp [h3] at h
        | ok tail =>
          simp only [h3, gt_iff_lt] at h
          by_cases hlive : u64_of_i64 (i64_wrap ((read_int r.timestamp).getD 0 +
              (read_int r.ttl).getD (DEFAULT_TTL : Int))) < cur
          · rw [if_pos hlive] at h
            simp only [Except.ok.injEq] at h
            subst h
            exact ih tail h3
          · rw [if_neg hlive] at h
            simp only [Except.ok.injEq] at h
            subst h
            intro a ha
            rcases List.mem_cons.mp ha with rfl | ha2
            · rfl
            · exact ih tail h3 a ha2

/-! ## Concrete values for counterexamples and witnesses -/

def cid : List Nat := List.replicate 32 1
def cip : List Nat := List.replicate 16 2
def csig : List Nat := List.replicate 64 3

/-- A concrete current time (2025-10-12 00:00:00 UTC). -/
def cnow : Nat := 1760227200

/-- A well-formed row that is live at `cnow`, with the field values an
update-path registration would write. -/
def crowLive : Row :=
  { id := Value.blob cid, ip := Value.blob cip, signature := Value.blob csig,
    port := Value.int 5050, priority := Value.int 1, client := Value.int 7,
    timestamp := Value.int (cnow : Int), ttl := Value.int 86400 }

/-- A well-formed row that is expired at `cnow` (registered at epoch
second 100 with a TTL of one day). -/
def crowExpired : Row :=
  { id := Value.blob cid, ip := Value.blob cip, signature := Value.blob csig,
    port := Value.int 5050, priority := Value.int 1, client := Value.int 7,
    timestamp := Value.int 100, ttl := Value.int 86400 }

/-! ## Claims -/

/-- C1: after a registration whose write completes, an immediate resolve
for the same identity must include the registered address.  The code
loses the address: storage.rs lines 47-48 bind both the timestamp and
the TTL to parameter slot 7 of `SQL_INSERT_IP` (slot 8 is never bound),
so the inserted row stores `timestamp = 86400` and `ttl = NULL`, and the
very next read filters it out as expired.  At this concrete input the
registration reports success with TTL 86400 while the immediate
`get_addresses` returns the empty list. -/
theorem claim_C1_register_then_resolve_loses_address :
    (do
      let sr ← save_address (Except.ok DbState.done) [] cid cip csig 5050 1 7 cnow
      let addrs ← get_addresses sr.1 cid cnow
      pure (sr.2, addrs) : Except Err (Nat × List Addr)) =
      Except.ok (86400, ([] : List Addr)) := by rfl

/-- C3: `check_signature` is claimed to return `false` on malformed
input and never panic; the code calls `.unwrap()` on
`PublicKey::from_bytes` (functions.rs line 5), so an empty public key —
wrong length, as arrives from an untrusted peer — panics instead. -/
theorem claim_C3_check_signature_panics_on_malformed_key :
    check_signature (fun _ _ _ => false) [] (List.replicate 64 0) [] =
      Except.error Err.panic := by rfl

/-- C6 (counterexample): the claim says a storage write failure yields
the degraded TTL 300 and is never propagated as a panic; in the code an
`Err` from `statement.next()` hits `.expect("Error in DB")` and panics,
so at this input `save_address` panics instead of returning a TTL. -/
theorem claim_C6_counterexample_write_failure_panics :
    save_address (Except.error ()) [] cid cip csig 5050 1 7 cnow =
      Except.error Err.panic := by rfl

/-- C6 (amended): `save_address` returns `DEFAULT_TTL` (86400) when the
DML statement steps to `Done`, returns the degraded 300 when the step
yields a `Row` (which a plain INSERT/UPDATE never produces), and panics
via `expect` when the step errors — a storage write failure surfaces as
a panic, not as the degraded TTL. -/
theorem claim_C6_amended_save_address_outcomes (o : StepOutcome) (rows : List Row)
    (id ip signature : List Nat) (port priority client now : Nat) :
    (o = Except.ok DbState.done →
      ∃ rows2, save_address o rows id ip signature port priority client now =
        Except.ok (rows2, DEFAULT_TTL)) ∧
    (o = Except.ok DbState.row →
      save_address o rows id ip signature port priority client now =
        Except.ok (rows, 300)) ∧
    (∀ e, o = Except.error e →
      save_address o rows id ip signature port priority client now =
        Except.error Err.panic) := by
  refine ⟨?_, ?_, ?_⟩
  · rintro rfl
    unfold save_address
    by_cases hs : is_address_saved rows id ip
    · refine ⟨rows.map (fun r =>
        if pairClientMatch id ip client r then
          { r with port := Value.int port, priority := Value.int priority,
                   timestamp := Value.int (i64_of_u64 now), ttl := Value.int DEFAULT_TTL }
        else r), ?_⟩
      simp [hs, update_address]
    · refine ⟨rows ++ [insertedRow (save_new_address_slots id ip signature port priority client now)], ?_⟩
      simp [hs, save_new_address]
  · rintro rfl
    unfold save_address
    by_cases hs : is_address_saved rows id ip <;>
      simp [hs, update_address, save_new_address]
  · rintro e rfl
    unfold save_address
    by_cases hs : is_address_saved rows id ip <;>
      simp [hs, update_address, save_new_address]

/-- Witness for the amended C6 at a concrete input. -/
theorem claim_C6_amended_witness :
    save_address (Except.ok DbState.row) [] cid cip csig 5050 1 7 cnow =
      Except.ok ([], 300) :=
  (claim_C6_amended_save_address_outcomes (Except.ok DbState.row) [] cid cip csig
    5050 1 7 cnow).2.1 rfl

/-- C7: every record a resolve returns carries the wire TTL 30
regardless of the stored `ttlSeconds`. -/
theorem claim_C7_resolve_ttl_is_30 (rows : List Row) (id : List Nat) (now : Nat)
    (res : List Addr) (h : get_addresses rows id now = Except.ok res) :
    ∀ a ∈ res, a.ttl = 30 :=
  select_rows_ttl now (rows.filter (fun r => decide (r.id = Value.blob id))) res h

/-- Witness for C7: a store holding a row with stored TTL 86400 resolves
to a record whose wire TTL is 30. -/
theorem claim_C7_witness :
    get_addresses [crowLive] cid cnow = Except.ok [Addr.mk cip csig 5050 1 7 30] ∧
    (Addr.mk cip csig 5050 1 7 30).ttl = 30 :=
  ⟨by rfl, claim_C7_resolve_ttl_is_30 [crowLive] cid cnow [Addr.mk cip csig 5050 1 7 30]
    (by rfl) (Addr.mk cip csig 5050 1 7 30) (by simp)⟩

/-- C10: a registration for an existing `(identity, address)` pair whose
clientTag differs from the stored one takes the update path (the
existence check of storage.rs line 30 matches on id and ip only), but
`SQL_UPDATE_IP`'s WHERE clause additionally requires `client = ?`, so no
row changes — yet `save_address` still reports the success TTL 86400. -/
theorem claim_C10_client_mismatch_silent_noop (rows : List Row)
    (id ip signature : List Nat) (port priority client now : Nat)
    (hsaved : is_address_saved rows id ip = true)
    (hdiff : ∀ r ∈ rows, pairMatch id ip r = true → r.client ≠ Value.int client) :
    save_address (Except.ok DbState.done) rows id ip signature port priority client now =
      Except.ok (rows, DEFAULT_TTL) := by
  unfold save_address
  simp only [hsaved, Bool.not_true, Bool.false_eq_true, if_false]
  unfold update_address
  have hnoop : ∀ r ∈ rows, pairClientMatch id ip client r = false := by
    intro r hr
    by_cases hp : pairMatch id ip r = true
    · unfold pairClientMatch
      simp [hp, hdiff r hr hp]
    · unfold pairClientMatch
      simp [Bool.eq_false_iff.mpr hp]
  have hpt : ∀ r ∈ rows, (fun r =>
      if pairClientMatch id ip client r then
        { r with port := Value.int port, priority := Value.int priority,
                 timestamp := Value.int (i64_of_u64 now), ttl := Value.int DEFAULT_TTL }
      else r) r = r := by
    intro r hr
    simp [hnoop r hr]
  have hmap := (List.map_congr_left hpt).trans (List.map_id rows)
  rw [hmap]

/-! ## Update-path lemmas shared by C2 and C5 -/

lemma i64_of_u64_small (n : Nat) (h : n < 2 ^ 63) : i64_of_u64 n = (n : Int) := by
  unfold i64_of_u64 i64_wrap
  omega

lemma u16_of_i64_small (n : Nat) (h : n < 2 ^ 16) : u16_of_i64 (n : Int) = n := by
  unfold u16_of_i64
  omega

lemma u8_of_i64_small (n : Nat) (h : n < 2 ^ 8) : u8_of_i64 (n : Int) = n := by
  unfold u8_of_i64
  omega

lemma u32_of_i64_small (n : Nat) (h : n < 2 ^ 32) : u32_of_i64 (n : Int) = n := by
  unfold u32_of_i64
  omega

lemma pairMatch_true_iff (id ip : List Nat) (r : Row) :
    pairMatch id ip r = true ↔ r.id = Value.blob id ∧ r.ip = Value.blob ip := by
  simp [pairMatch]

/-- When a row for the pair exists, `save_address` takes the update path
and rewrites exactly the rows matching `(id, ip, client)`. -/
lemma save_address_update_eq (rows : List Row) (id ip signature : List Nat)
    (port priority client now : Nat)
    (hs : is_address_saved rows id ip = true) :
    save_address (Except.ok DbState.done) rows id ip signature port priority client now =
      Except.ok (rows.map (fun r =>
        if pairClientMatch id ip client r then
          { r with port := Value.int port, priority := Value.int priority,
                   timestamp := Value.int (i64_of_u64 now), ttl := Value.int DEFAULT_TTL }
        else r), DEFAULT_TTL) := by
  unfold save_address
  simp [hs, update_address]

/-- An update-path rewrite keeps a row well-formed. -/
lemma wfRow_update (r : Row) (port priority now : Nat) (hr : wfRow r = true)
    (hnow : now < 2 ^ 62) :
    wfRow { r with port := Value.int port, priority := Value.int priority,
                   timestamp := Value.int (i64_of_u64 now),
                   ttl := Value.int DEFAULT_TTL } = true := by
  obtain ⟨h1, h2, h3, _, _, _⟩ := wfRow_split r hr
  have hn : i64_of_u64 now = (now : Int) := i64_of_u64_small now (by omega)
  unfold wfRow rowTime rowTtl
  simp only [hn, read_int, Option.getD_some, h1, h2, h3, Bool.and_eq_true, decide_eq_true_eq]
  refine ⟨⟨⟨⟨⟨trivial, trivial⟩, trivial⟩, by positivity⟩, by norm_num [DEFAULT_TTL]⟩, ?_⟩
  have : (now : Int) + (DEFAULT_TTL : Int) < 2 ^ 63 := by
    norm_num [DEFAULT_TTL]
    omega
  exact this

/-- The rewritten row is live at the time of the write. -/
lemma liveAt_updated (r : Row) (port priority now : Nat) (hr : wfRow r = true)
    (hnow : now < 2 ^ 62) :
    liveAt now { r with port := Value.int port, priority := Value.int priority,
                        timestamp := Value.int (i64_of_u64 now),
                        ttl := Value.int DEFAULT_TTL } = true := by
  rw [liveAt_iff now _ (wfRow_update r port priority now hr hnow)]
  unfold rowTime rowTtl
  simp only [read_int, Option.getD_some, i64_of_u64_small now (by omega : now < 2 ^ 63)]
  norm_num [DEFAULT_TTL]

/-- C2: a resolve returns exactly the live records (`live` being
`now <= registeredAt + ttlSeconds` on the values the select loop reads),
never an expired one, and the presence of an expired row for a pair does
not stop a fresh registration of that pair (same clientTag, as the
stored row's UPDATE match requires) from succeeding and making the
address resolvable again. -/
theorem claim_C2_expiry_invariant (rows : List Row)
    (id ip signature2 : List Nat) (port priority client now : Nat)
    (hwf : ∀ r ∈ rows, wfRow r = true)
    (hnow : now < 2 ^ 62)
    (hexp : ∃ r ∈ rows, pairMatch id ip r = true ∧ liveAt now r = false)
    (hclient : ∀ r ∈ rows, pairMatch id ip r = true → r.client = Value.int client) :
    (get_addresses rows id now =
      Except.ok (((rows.filter (fun r => decide (r.id = Value.blob id))).filter
        (liveAt now)).map rowToAddr)) ∧
    (∀ r ∈ rows, (liveAt now r = true ↔ (now : Int) ≤ rowTime r + rowTtl r)) ∧
    (∀ a ∈ (((rows.filter (fun r => decide (r.id = Value.blob id))).filter
        (liveAt now)).map rowToAddr),
      ∃ r ∈ rows, r.id = Value.blob id ∧ liveAt now r = true ∧ a = rowToAddr r) ∧
    (∃ rows2,
      save_address (Except.ok DbState.done) rows id ip signature2 port priority client now =
        Except.ok (rows2, DEFAULT_TTL) ∧
      ∃ l, get_addresses rows2 id now = Except.ok l ∧ ∃ a ∈ l, a.ip = ip) := by
  obtain ⟨r0, hr0mem, hr0pair, hr0dead⟩ := hexp
  refine ⟨select_addresses_of_wf rows id now hwf, ?_, ?_, ?_⟩
  · intro r hr
    exact liveAt_iff now r (hwf r hr)
  · intro a ha
    obtain ⟨r, hrf, rfl⟩ := List.mem_map.mp ha
    obtain ⟨hrf2, hrlive⟩ := List.mem_filter.mp hrf
    obtain ⟨hrmem, hrid⟩ := List.mem_filter.mp hrf2
    exact ⟨r, hrmem, of_decide_eq_true hrid, hrlive, rfl⟩
  · have hsaved : is_address_saved rows id ip = true := by
      unfold is_address_saved
      exact List.any_eq_true.mpr ⟨r0, hr0mem, hr0pair⟩
    refine ⟨_, save_address_update_eq rows id ip signature2 port priority client now hsaved, ?_⟩
    set f : Row → Row := fun r =>
      if pairClientMatch id ip client r then
        { r with port := Value.int port, priority := Value.int priority,
                 timestamp := Value.int (i64_of_u64 now), ttl := Value.int DEFAULT_TTL }
      else r with hf
    have hwf2 : ∀ r ∈ rows.map f, wfRow r = true := by
      intro r hr
      obtain ⟨x, hx, rfl⟩ := List.mem_map.mp hr
      by_cases hp : pairClientMatch id ip client x = true
      · simp only [hf, hp, if_true]
        exact wfRow_update x port priority now (hwf x hx) hnow
      · simp only [hf, Bool.eq_false_iff.mpr hp, if_false]
        exact hwf x hx
    refine ⟨_, select_addresses_of_wf (rows.map f) id now hwf2, ?_⟩
    obtain ⟨hr0id, hr0ip⟩ := (pairMatch_true_iff id ip r0).mp hr0pair
    have hr0client : pairClientMatch id ip client r0 = true := by
      unfold pairClientMatch
      simp [hr0pair, hclient r0 hr0mem hr0pair]
    refine ⟨rowToAddr (f r0), ?_, ?_⟩
    · apply List.mem_map.mpr
      refine ⟨f r0, ?_, rfl⟩
      apply List.mem_filter.mpr
      constructor
      · apply List.mem_filter.mpr
        constructor
        · exact List.mem_map.mpr ⟨r0, hr0mem, rfl⟩
        · simp only [hf, hr0client, if_true, decide_eq_true_eq]
          exact hr0id
      · simp only [hf, hr0client, if_true]
        exact liveAt_updated r0 port priority now (hwf r0 hr0mem) hnow
    · simp only [hf, hr0client, if_true, rowToAddr, blobOf, hr0ip]

/-- Witness for C2: one expired stored row; the resolve is empty, and a
fresh registration for the same pair succeeds and becomes resolvable. -/
theorem claim_C2_witness :
    get_addresses [crowExpired] cid cnow = Except.ok [] ∧
    (∃ rows2,
      save_address (Except.ok DbState.done) [crowExpired] cid cip csig 5050 1 7 cnow =
        Except.ok (rows2, DEFAULT_TTL) ∧
      ∃ l, get_addresses rows2 cid cnow = Except.ok l ∧ ∃ a ∈ l, a.ip = cip) := by
  have h := claim_C2_expiry_invariant [crowExpired] cid cip csig 5050 1 7 cnow
    (by decide) (by decide) ⟨crowExpired, by decide, by decide, by decide⟩ (by decide)
  refine ⟨?_, h.2.2.2⟩
  rw [h.1]
  rfl

/-- After an update-path registration, filtering the resolve output down
to the registered address keeps exactly the (previously pair-matching)
rows, each carrying the freshly written values. -/
lemma select_filter_after_update (l : List Row) (id ip : List Nat)
    (port priority client now : Nat)
    (hwf : ∀ r ∈ l, wfRow r = true) (hnow : now < 2 ^ 62)
    (hclient : ∀ r ∈ l, pairMatch id ip r = true → r.client = Value.int client) :
    (((((l.map (fun r =>
        if pairClientMatch id ip client r then
          { r with port := Value.int port, priority := Value.int priority,
                   timestamp := Value.int (i64_of_u64 now), ttl := Value.int DEFAULT_TTL }
        else r)).filter (fun r => decide (r.id = Value.blob id))).filter
      (liveAt now)).map rowToAddr).filter (fun a => decide (a.ip = ip))) =
      (l.filter (pairMatch id ip)).map (fun r => rowToAddr
        { r with port := Value.int port, priority := Value.int priority,
                 timestamp := Value.int (i64_of_u64 now), ttl := Value.int DEFAULT_TTL }) := by
  induction l with
  | nil => rfl
  | cons r rest ih =>
    have hr := hwf r (by simp)
    have ihr := ih (fun x hx => hwf x (by simp [hx])) (fun x hx hp => hclient x (by simp [hx]) hp)
    by_cases hp : pairMatch id ip r = true
    · obtain ⟨hrid, hrip⟩ := (pairMatch_true_iff id ip r).mp hp
      have hpc : pairClientMatch id ip client r = true := by
        unfold pairClientMatch
        simp [hp, hclient r (by simp) hp]
      have hidm : decide (({ r with port := Value.int port, priority := Value.int priority, timestamp := Value.int (i64_of_u64 now), ttl := Value.int DEFAULT_TTL } : Row).id = Value.blob id) = true := by
        simp [hrid]
      have hlive := liveAt_updated r port priority now hr hnow
      have hpip : decide ((rowToAddr { r with port := Value.int port, priority := Value.int priority, timestamp := Value.int (i64_of_u64 now), ttl := Value.int DEFAULT_TTL }).ip = ip) = true := by
        simp [rowToAddr, blobOf, hrip]
      rw [List.map_cons, if_pos hpc, List.filter_cons, if_pos hidm,
        List.filter_cons, if_pos hlive, List.map_cons, List.filter_cons, if_pos hpip,
        List.filter_cons, if_pos hp, List.map_cons, ihr]
    · have hpc : pairClientMatch id ip client r = false := by
        unfold pairClientMatch
        simp [Bool.eq_false_iff.mpr hp]
      rw [List.map_cons, if_neg (by simp [hpc])]
      by_cases hid2 : r.id = Value.blob id
      · obtain ⟨b, hblen, hb⟩ := wfRow_ip r hr
        have hbne : b ≠ ip := by
          intro hcon
          exact hp ((pairMatch_true_iff id ip r).mpr ⟨hid2, by rw [hb, hcon]⟩)
        rw [List.filter_cons, if_pos (show decide (r.id = Value.blob id) = true by simp [hid2])]
        by_cases hlv : liveAt now r = true
        · have hpip2 : ¬ decide ((rowToAddr r).ip = ip) = true := by
            simp [rowToAddr, blobOf, hb, hbne]
          rw [List.filter_cons, if_pos hlv, List.map_cons, List.filter_cons, if_neg hpip2,
            List.filter_cons, if_neg hp]
          exact ihr
        · rw [List.filter_cons, if_neg hlv, List.filter_cons, if_neg hp]
          exact ihr
      · rw [List.filter_cons, if_neg (by simp [hid2]), List.filter_cons, if_neg hp]
        exact ihr

/-- C5: re-registering an existing `(identity, address)` pair (with the
pair's stored clientTag, which the UPDATE's WHERE clause requires) with
new port and priority updates the row in place — the store does not grow
— and a following resolve returns exactly one record for that address,
carrying the new port and priority. -/
theorem claim_C5_reregistration_updates_in_place (rows : List Row)
    (id ip signature2 : List Nat) (port priority client now : Nat)
    (hwf : ∀ r ∈ rows, wfRow r = true)
    (hnow : now < 2 ^ 62)
    (hport : port < 2 ^ 16) (hprio : priority < 2 ^ 8) (hcl : client < 2 ^ 32)
    (huniq : (rows.filter (pairMatch id ip)).length = 1)
    (hclient : ∀ r ∈ rows, pairMatch id ip r = true → r.client = Value.int client) :
    ∃ rows2,
      save_address (Except.ok DbState.done) rows id ip signature2 port priority client now =
        Except.ok (rows2, DEFAULT_TTL) ∧
      rows2.length = rows.length ∧
      ∃ l, get_addresses rows2 id now = Except.ok l ∧
        ∃ s, l.filter (fun a => decide (a.ip = ip)) =
          [{ ip := ip, signature := s, port := port, priority := priority,
             client := client, ttl := 30 }] := by
  obtain ⟨r0, hr0⟩ := List.length_eq_one.mp huniq
  have hr0mem : r0 ∈ rows ∧ pairMatch id ip r0 = true := by
    have hm : r0 ∈ rows.filter (pairMatch id ip) := by rw [hr0]; simp
    exact ⟨(List.mem_filter.mp hm).1, (List.mem_filter.mp hm).2⟩
  have hsaved : is_address_saved rows id ip = true :=
    List.any_eq_true.mpr ⟨r0, hr0mem.1, hr0mem.2⟩
  refine ⟨_, save_address_update_eq rows id ip signature2 port priority client now hsaved,
    by simp, ?_⟩
  have hwf2 : ∀ r ∈ rows.map (fun r =>
      if pairClientMatch id ip client r then
        { r with port := Value.int port, priority := Value.int priority,
                 timestamp := Value.int (i64_of_u64 now), ttl := Value.int DEFAULT_TTL }
      else r), wfRow r = true := by
    intro r hrm
    obtain ⟨x, hx, rfl⟩ := List.mem_map.mp hrm
    by_cases hpc : pairClientMatch id ip client x = true
    · simp only [hpc, if_true]
      exact wfRow_update x port priority now (hwf x hx) hnow
    · simp only [Bool.eq_false_iff.mpr hpc, if_false]
      exact hwf x hx
  refine ⟨_, select_addresses_of_wf _ id now hwf2, ?_⟩
  refine ⟨blobOf r0.signature, ?_⟩
  rw [select_filter_after_update rows id ip port priority client now hwf hnow hclient]
  rw [hr0]
  obtain ⟨hr0id, hr0ip⟩ := (pairMatch_true_iff id ip r0).mp hr0mem.2
  simp only [List.map_cons, List.map_nil, rowToAddr, blobOf, hr0ip]
  simp only [read_int, Option.getD_some, u16_of_i64_small port hport,
    u8_of_i64_small priority hprio]
  have hc := hclient r0 hr0mem.1 hr0mem.2
  rw [hc]
  simp [read_int, u32_of_i64_small client hcl]

/-- Witness for C5: a store holding one row for the pair with old port
5050 and priority 1; re-registering with port 6060 and priority 2 keeps
the store at one row and resolves to exactly one record with the new
values. -/
theorem claim_C5_witness :
    ∃ rows2,
      save_address (Except.ok DbState.done) [crowLive] cid cip csig 6060 2 7 cnow =
        Except.ok (rows2, DEFAULT_TTL) ∧
      rows2.length = 1 ∧
      ∃ l, get_addresses rows2 cid cnow = Except.ok l ∧
        ∃ s, l.filter (fun a => decide (a.ip = cip)) =
          [{ ip := cip, signature := s, port := 6060, priority := 2,
             client := 7, ttl := 30 }] :=
  claim_C5_reregistration_updates_in_place [crowLive] cid cip csig 6060 2 7 cnow
    (by decide) (by decide) (by decide) (by decide) (by decide) (by decide) (by decide)

/-- Witness for C10: one live stored row with clientTag 7; registering
the same pair with clientTag 8 leaves the store bit-for-bit unchanged
and still returns TTL 86400. -/
theorem claim_C10_witness :
    save_address (Except.ok DbState.done) [crowLive] cid cip csig 6060 2 8 cnow =
      Except.ok ([crowLive], DEFAULT_TTL) :=
  claim_C10_client_mismatch_silent_noop [crowLive] cid cip csig 6060 2 8 cnow
    (by decide) (by decide)

/-! ## Codec lemmas for the server-level claims -/

lemma beBytes_length (n v : Nat) : (beBytes n v).length = n := by
  induction n generalizing v with
  | zero => rfl
  | succ m ih => simp [beBytes, ih]

lemma read_u8_cons (b : Nat) (l : List Nat) : read_u8 (b :: l) = Except.ok (b, l) := rfl

lemma read_exact_pos (n : Nat) (l1 l2 : List Nat) (h : l1.length = n) :
    read_exact n (l1 ++ l2) = Except.ok (l1, l2) := by
  unfold read_exact
  rw [if_pos (by simp [h]), List.take_left' h, List.drop_left' h]

lemma read_u16_append (l1 l2 : List Nat) (h : l1.length = 2) :
    read_u16 (l1 ++ l2) = Except.ok (beNat l1, l2) := by
  unfold read_u16
  rw [read_exact_pos 2 l1 l2 h]
  rfl

lemma read_u32_append (l1 l2 : List Nat) (h : l1.length = 4) :
    read_u32 (l1 ++ l2) = Except.ok (beNat l1, l2) := by
  unfold read_u32
  rw [read_exact_pos 4 l1 l2 h]
  rfl

/-- Parsing a well-formed header: the fields come back field for field
and the remainder is untouched. -/
lemma parseHeader_ok (ver nonce cmd : Nat) (id rest : List Nat) (hid : id.length = 32) :
    parseHeader (ver :: (beBytes 4 nonce ++ (cmd :: (id ++ rest)))) =
      Except.ok (ver, beNat (beBytes 4 nonce), cmd, id, rest) := by
  unfold parseHeader
  simp only [bind, Except.bind, pure, Except.pure, read_u8_cons, read_u32_append,
    read_exact_pos, beBytes_length, hid]

/-- Parsing a well-formed register payload. -/
lemma parseRegisterPayload_ok (port priority client : Nat) (ip sig rest : List Nat)
    (hip : ip.length = 16) (hsig : sig.length = 64) :
    parseRegisterPayload (beBytes 2 port ++ (priority :: (beBytes 4 client ++
      (ip ++ (sig ++ rest))))) =
      Except.ok (beNat (beBytes 2 port), priority, beNat (beBytes 4 client), ip, sig) := by
  unfold parseRegisterPayload
  simp only [bind, Except.bind, pure, Except.pure, read_u8_cons, read_u16_append,
    read_u32_append, read_exact_pos, beBytes_length, hip, hsig]

/-- C4: a register request whose signature does not verify over the 16
address bytes is dropped before any storage access: `process_message`
returns `Err` (so the loop sends no response datagram) and the store's
rows are returned untouched — no insert and no field update. -/
theorem claim_C4_invalid_signature_no_reply_no_write
    (verify : List Nat → List Nat → List Nat → Bool) (o : StepOutcome)
    (rows : List Row) (now ver nonce port priority client : Nat)
    (id ip sig extra : List Nat)
    (hid : id.length = 32) (hip : ip.length = 16) (hsig : sig.length = 64)
    (hv : verify id sig ip = false) :
    process_message verify o rows now
      (encodeRegister ver nonce id port priority client ip sig ++ extra) =
      (Except.error Err.other, rows) := by
  have hdata : encodeRegister ver nonce id port priority client ip sig ++ extra =
      ver :: (beBytes 4 nonce ++ (0 :: (id ++ (beBytes 2 port ++ (priority ::
        (beBytes 4 client ++ (ip ++ (sig ++ extra)))))))) := by
    simp [encodeRegister, List.cons_append, List.append_assoc]
  rw [hdata]
  unfold process_message
  rw [parseHeader_ok ver nonce 0 id _ hid]
  simp only [parseRegisterPayload_ok port priority client ip sig extra hip hsig,
    check_signature, public_key_from_bytes, signature_from_bytes, unwrapOpt, hid, hsig,
    bind, Except.bind, pure, Except.pure, hv, if_true, if_pos]

/-- Witness for C4 at a concrete input: a verifier that rejects
everything, a concrete register datagram, an empty store. -/
theorem claim_C4_witness :
    process_message (fun _ _ _ => false) (Except.ok DbState.done) [] cnow
      (encodeRegister 4 9 cid 5050 1 7 cip csig ++ []) =
      (Except.error Err.other, []) :=
  claim_C4_invalid_signature_no_reply_no_write (fun _ _ _ => false) (Except.ok DbState.done)
    [] cnow 4 9 5050 1 7 cid cip csig [] (by decide) (by decide) (by decide) rfl

/-! ## Truncated-input lemmas -/

lemma read_exact_of_le (n : Nat) (l : List Nat) (h : n ≤ l.length) :
    read_exact n l = Except.ok (l.take n, l.drop n) := by
  unfold read_exact
  rw [if_pos h]

lemma read_exact_short (n : Nat) (l : List Nat) (h : l.length < n) :
    read_exact n l = Except.error Err.unexpectedEof := by
  unfold read_exact
  rw [if_neg (by omega)]

lemma read_u16_of_le (l : List Nat) (h : 2 ≤ l.length) :
    read_u16 l = Except.ok (beNat (l.take 2), l.drop 2) := by
  unfold read_u16
  rw [read_exact_of_le 2 l h]
  rfl

lemma read_u16_short (l : List Nat) (h : l.length < 2) :
    read_u16 l = Except.error Err.unexpectedEof := by
  unfold read_u16
  rw [read_exact_short 2 l h]
  rfl

lemma read_u32_of_le (l : List Nat) (h : 4 ≤ l.length) :
    read_u32 l = Except.ok (beNat (l.take 4), l.drop 4) := by
  unfold read_u32
  rw [read_exact_of_le 4 l h]
  rfl

lemma read_u32_short (l : List Nat) (h : l.length < 4) :
    read_u32 l = Except.error Err.unexpectedEof := by
  unfold read_u32
  rw [read_exact_short 4 l h]
  rfl

/-- A datagram shorter than the 38-byte common header fails to decode
with `UnexpectedEof`. -/
lemma parseHeader_short (l : List Nat) (h : l.length < 38) :
    parseHeader l = Except.error Err.unexpectedEof := by
  unfold parseHeader
  cases l with
  | nil => rfl
  | cons b t =>
    simp only [List.length_cons] at h
    by_cases h4 : 4 ≤ t.length
    · simp only [bind, Except.bind, pure, Except.pure, read_u8_cons, read_u32_of_le t h4]
      cases h5 : t.drop 4 with
      | nil => rfl
      | cons c u =>
        have hu : u.length < 32 := by
          have h6 := congrArg List.length h5
          simp only [List.length_drop, List.length_cons] at h6
          omega
        simp only [read_u8_cons, bind, Except.bind]
        rw [read_exact_short 32 u hu]
    · have h7 : read_u32 t = Except.error Err.unexpectedEof := read_u32_short t (by omega)
      simp only [bind, Except.bind, read_u8_cons, h7]

/-- A register payload shorter than its 87 bytes fails to decode with
`UnexpectedEof`. -/
lemma parseRegisterPayload_short (d : List Nat) (h : d.length < 87) :
    parseRegisterPayload d = Except.error Err.unexpectedEof := by
  unfold parseRegisterPayload
  by_cases h2 : 2 ≤ d.length
  · simp only [bind, Except.bind, pure, Except.pure, read_u16_of_le d h2]
    cases h3 : d.drop 2 with
    | nil => rfl
    | cons c u =>
      have hu : u.length = d.length - 3 := by
        have h6 := congrArg List.length h3
        simp only [List.length_drop, List.length_cons] at h6
        omega
      simp only [read_u8_cons, bind, Except.bind]
      by_cases h4 : 4 ≤ u.length
      · simp only [read_u32_of_le u h4, pure, Except.pure]
        by_cases h16 : 16 ≤ (u.drop 4).length
        · simp only [read_exact_of_le 16 _ h16]
          rw [read_exact_short 64 ((u.drop 4).drop 16)
            (by simp only [List.length_drop]; omega)]
        · rw [read_exact_short 16 _ (by omega)]
      · rw [read_u32_short u (by omega)]
  · rw [read_u16_short d (by omega)]
    rfl

/-- C8: a register datagram truncated anywhere before its full 125
bytes — at any field boundary or within a field — fails to decode with
`UnexpectedEof`; `process_message` returns `Err` (no response datagram)
and the store's rows are untouched. -/
theorem claim_C8_truncated_register_dropped
    (verify : List Nat → List Nat → List Nat → Bool) (o : StepOutcome)
    (rows : List Row) (now ver nonce port priority client k : Nat)
    (id ip sig : List Nat)
    (hid : id.length = 32) (hip : ip.length = 16) (hsig : sig.length = 64)
    (hk : k < 125) :
    process_message verify o rows now
      ((encodeRegister ver nonce id port priority client ip sig).take k) =
      (Except.error Err.unexpectedEof, rows) := by
  have hlen : (encodeRegister ver nonce id port priority client ip sig).length = 125 := by
    simp [encodeRegister, beBytes_length, hid, hip, hsig]
  by_cases h38 : k < 38
  · have hl : ((encodeRegister ver nonce id port priority client ip sig).take k).length < 38 := by
      simp only [List.length_take, hlen]
      omega
    unfold process_message
    rw [parseHeader_short _ hl]
  · have hdec : encodeRegister ver nonce id port priority client ip sig =
        (ver :: (beBytes 4 nonce ++ (0 :: id))) ++
          (beBytes 2 port ++ (priority :: (beBytes 4 client ++ (ip ++ sig)))) := by
      simp [encodeRegister, List.cons_append, List.append_assoc]
    have hHlen : (ver :: (beBytes 4 nonce ++ (0 :: id))).length = 38 := by
      simp [beBytes_length, hid]
    have hPlen : (beBytes 2 port ++ (priority :: (beBytes 4 client ++ (ip ++ sig)))).length = 87 := by
      simp [beBytes_length, hip, hsig]
    rw [hdec, List.take_append_eq_append_take, List.take_of_length_le (by omega), hHlen]
    have hTlen : ((beBytes 2 port ++ (priority :: (beBytes 4 client ++ (ip ++ sig)))).take
        (k - 38)).length < 87 := by
      simp only [List.length_take, hPlen]
      omega
    have hnorm : (ver :: (beBytes 4 nonce ++ (0 :: id))) ++
        ((beBytes 2 port ++ (priority :: (beBytes 4 client ++ (ip ++ sig)))).take (k - 38)) =
        ver :: (beBytes 4 nonce ++ (0 :: (id ++
          ((beBytes 2 port ++ (priority :: (beBytes 4 client ++ (ip ++ sig)))).take (k - 38))))) := by
      simp [List.cons_append, List.append_assoc]
    rw [hnorm]
    unfold process_message
    rw [parseHeader_ok ver nonce 0 id _ hid]
    simp only [parseRegisterPayload_short _ hTlen]

/-- Witness for C8: a concrete register datagram cut to 100 bytes
(inside the signature field) is dropped with the store unchanged. -/
theorem claim_C8_witness :
    process_message (fun _ _ _ => true) (Except.ok DbState.done) [crowLive] cnow
      ((encodeRegister 4 9 cid 5050 1 7 cip csig).take 100) =
      (Except.error Err.unexpectedEof, [crowLive]) :=
  claim_C8_truncated_register_dropped (fun _ _ _ => true) (Except.ok DbState.done)
    [crowLive] cnow 4 9 5050 1 7 100 cid cip csig (by decide) (by decide) (by decide)
    (by decide)

/-! ## Response-buffer lemmas for C9 -/

lemma writeBytes_ok (w bs w2 : List Nat) (h : writeBytes w bs = Except.ok w2) :
    w2 = w ++ bs ∧ w2.length ≤ RESPONSE_LEN := by
  unfold writeBytes at h
  by_cases hc : w.length + bs.length ≤ RESPONSE_LEN
  · rw [if_pos hc] at h
    cases h
    exact ⟨rfl, by simp [hc]⟩
  · rw [if_neg hc] at h
    exact absurd h (by simp)

lemma writeBytes_error (w bs : List Nat) (e : Err) (h : writeBytes w bs = Except.error e) :
    e = Err.writeZero := by
  unfold writeBytes at h
  by_cases hc : w.length + bs.length ≤ RESPONSE_LEN
  · rw [if_pos hc] at h
    exact absurd h (by simp)
  · rw [if_neg hc] at h
    cases h
    rfl

lemma writeBytes_ok_of_le (w bs : List Nat) (h : w.length + bs.length ≤ RESPONSE_LEN) :
    writeBytes w bs = Except.ok (w ++ bs) := by
  unfold writeBytes
  rw [if_pos h]

lemma ebind_ok {α β : Type} (a : α) (f : α → Except Err β) :
    Except.bind (Except.ok a) f = f a := rfl

lemma ebind_err {α β : Type} (e : Err) (f : α → Except Err β) :
    Except.bind (Except.error e) f = Except.error e := rfl

/-- A successful record loop never leaves more than the buffer's 1024
bytes written. -/
lemma write_addrs_ok_length (l : List Addr) : ∀ (w w2 : List Nat),
    w.length ≤ RESPONSE_LEN → write_addrs w l = Except.ok w2 →
    w2.length ≤ RESPONSE_LEN := by
  induction l with
  | nil =>
    intro w w2 hw h
    simp only [write_addrs, Except.ok.injEq] at h
    subst h
    exact hw
  | cons a rest ih =>
    intro w w2 hw h
    simp only [write_addrs, bind] at h
    cases h1 : writeBytes w a.ip with
    | error e => simp only [h1, ebind_err] at h; cases h
    | ok w1 =>
      simp only [h1, ebind_ok] at h
      cases h2 : writeBytes w1 a.signature with
      | error e => simp only [h2, ebind_err] at h; cases h
      | ok wb =>
        simp only [h2, ebind_ok] at h
        cases h3 : writeBytes wb (beBytes 2 a.port) with
        | error e => simp only [h3, ebind_err] at h; cases h
        | ok w3 =>
          simp only [h3, ebind_ok] at h
          cases h4 : writeBytes w3 [a.priority] with
          | error e => simp only [h4, ebind_err] at h; cases h
          | ok w4 =>
            simp only [h4, ebind_ok] at h
            cases h5 : writeBytes w4 (beBytes 4 a.client) with
            | error e => simp only [h5, ebind_err] at h; cases h
            | ok w5 =>
              simp only [h5, ebind_ok] at h
              cases h6 : writeBytes w5 (beBytes 8 a.ttl) with
              | error e => simp only [h6, ebind_err] at h; cases h
              | ok w6 =>
                simp only [h6, ebind_ok] at h
                exact ih w6 w2 (writeBytes_ok w5 (beBytes 8 a.ttl) w6 h6).2 h

/-- When the per-identity records (each 95 wire bytes) cannot all fit in
the rest of the buffer, the record loop fails with `WriteZero`. -/
lemma write_addrs_overflow (l : List Addr) : ∀ (w : List Nat),
    (∀ a ∈ l, a.ip.length = 16 ∧ a.signature.length = 64) →
    w.length ≤ RESPONSE_LEN → RESPONSE_LEN < w.length + 95 * l.length →
    write_addrs w l = Except.error Err.writeZero := by
  induction l with
  | nil =>
    intro w _ hw hov
    simp only [List.length_nil] at hov
    omega
  | cons a rest ih =>
    intro w hl hw hov
    obtain ⟨hip, hsig⟩ := hl a (by simp)
    simp only [write_addrs, bind]
    cases h1 : writeBytes w a.ip with
    | error e =>
      simp only [h1, ebind_err, writeBytes_error _ _ _ h1]
    | ok w1 =>
      obtain ⟨rfl, hw1⟩ := writeBytes_ok _ _ _ h1
      simp only [h1, ebind_ok]
      cases h2 : writeBytes (w ++ a.ip) a.signature with
      | error e =>
        simp only [h2, ebind_err, writeBytes_error _ _ _ h2]
      | ok wb =>
        obtain ⟨rfl, hw2⟩ := writeBytes_ok _ _ _ h2
        simp only [h2, ebind_ok]
        cases h3 : writeBytes (w ++ a.ip ++ a.signature) (beBytes 2 a.port) with
        | error e =>
          simp only [h3, ebind_err, writeBytes_error _ _ _ h3]
        | ok w3 =>
          obtain ⟨rfl, hw3⟩ := writeBytes_ok _ _ _ h3
          simp only [h3, ebind_ok]
          cases h4 : writeBytes (w ++ a.ip ++ a.signature ++ beBytes 2 a.port) [a.priority] with
          | error e =>
            simp only [h4, ebind_err, writeBytes_error _ _ _ h4]
          | ok w4 =>
            obtain ⟨rfl, hw4⟩ := writeBytes_ok _ _ _ h4
            simp only [h4, ebind_ok]
            cases h5 : writeBytes (w ++ a.ip ++ a.signature ++ beBytes 2 a.port ++ [a.priority])
                (beBytes 4 a.client) with
            | error e =>
              simp only [h5, ebind_err, writeBytes_error _ _ _ h5]
            | ok w5 =>
              obtain ⟨rfl, hw5⟩ := writeBytes_ok _ _ _ h5
              simp only [h5, ebind_ok]
              cases h6 : writeBytes (w ++ a.ip ++ a.signature ++ beBytes 2 a.port ++
                  [a.priority] ++ beBytes 4 a.client) (beBytes 8 a.ttl) with
              | error e =>
                simp only [h6, ebind_err, writeBytes_error _ _ _ h6]
              | ok w6 =>
                obtain ⟨rfl, hw6⟩ := writeBytes_ok _ _ _ h6
                simp only [h6, ebind_ok]
                apply ih _ (fun x hx => hl x (by simp [hx])) hw6
                simp only [List.length_append, List.length_cons, List.length_nil,
                  beBytes_length, hip, hsig] at hov ⊢
                omega

/-- The register-response encode chain only succeeds within the buffer. -/
lemma encode3_ok_length (b1 b2 b3 w : List Nat)
    (h : (do
        let w1 ← writeBytes [] b1
        let w2 ← writeBytes w1 b2
        writeBytes w2 b3 : Except Err (List Nat)) = Except.ok w) :
    w.length ≤ RESPONSE_LEN := by
  simp only [bind] at h
  cases h1 : writeBytes [] b1 with
  | error e => simp only [h1, ebind_err] at h; cases h
  | ok w1 =>
    simp only [h1, ebind_ok] at h
    cases h2 : writeBytes w1 b2 with
    | error e => simp only [h2, ebind_err] at h; cases h
    | ok w2 =>
      simp only [h2, ebind_ok] at h
      exact (writeBytes_ok _ _ _ h).2

/-- The resolve-response encode chain only succeeds within the buffer. -/
lemma encode_resolve_ok_length (b1 b2 b3 : List Nat) (l : List Addr) (w : List Nat)
    (h : (do
        let w1 ← writeBytes [] b1
        let w2 ← writeBytes w1 b2
        let w3 ← writeBytes w2 b3
        write_addrs w3 l : Except Err (List Nat)) = Except.ok w) :
    w.length ≤ RESPONSE_LEN := by
  simp only [bind] at h
  cases h1 : writeBytes [] b1 with
  | error e => simp only [h1, ebind_err] at h; cases h
  | ok w1 =>
    simp only [h1, ebind_ok] at h
    cases h2 : writeBytes w1 b2 with
    | error e => simp only [h2, ebind_err] at h; cases h
    | ok w2 =>
      simp only [h2, ebind_ok] at h
      cases h3 : writeBytes w2 b3 with
      | error e => simp only [h3, ebind_err] at h; cases h
      | ok w3 =>
        simp only [h3, ebind_ok] at h
        exact write_addrs_ok_length l w3 w (writeBytes_ok _ _ _ h3).2 h

/-- Whatever the inbound datagram, a response `process_message` actually
produces fits in the 1024-byte buffer. -/
lemma process_ok_length (verify : List Nat → List Nat → List Nat → Bool) (o : StepOutcome)
    (rows : List Row) (now : Nat) (data resp : List Nat) (rows2 : List Row)
    (h : process_message verify o rows now data = (Except.ok resp, rows2)) :
    resp.length ≤ RESPONSE_LEN := by
  unfold process_message at h
  repeat' split at h
  all_goals first
    | (rename_i w heq
       simp only [Prod.mk.injEq, Except.ok.injEq] at h
       obtain ⟨h1, h2⟩ := h
       subst h1
       first
         | exact encode3_ok_length _ _ _ _ heq
         | exact encode_resolve_ok_length _ _ _ _ _ heq)
    | simp at h

/-- Every `Addr` built from a well-formed row carries a 16-byte address
and a 64-byte signature. -/
lemma rowToAddr_wire_lengths (r : Row) (h : wfRow r = true) :
    (rowToAddr r).ip.length = 16 ∧ (rowToAddr r).signature.length = 64 := by
  obtain ⟨b, hb16, hbip⟩ := wfRow_ip r h
  obtain ⟨s, hs64, hbsig⟩ := wfRow_sig r h
  simp [rowToAddr, blobOf, hbip, hbsig, hb16, hs64]

/-- A resolve whose live records overflow the 1024-byte buffer fails
with `WriteZero`: no truncated response is produced and no datagram is
sent. -/
lemma resolve_overflow (verify : List Nat → List Nat → List Nat → Bool) (o : StepOutcome)
    (rows : List Row) (now ver nonce : Nat) (id : List Nat)
    (hid : id.length = 32) (hwf : ∀ r ∈ rows, wfRow r = true)
    (hov : RESPONSE_LEN < 6 + 95 * (((rows.filter (fun r => decide (r.id = Value.blob id))).filter
      (liveAt now)).length)) :
    process_message verify o rows now (encodeResolve ver nonce id) =
      (Except.error Err.writeZero, rows) := by
  have hnorm : encodeResolve ver nonce id = ver :: (beBytes 4 nonce ++ (1 :: (id ++ []))) := by
    simp [encodeResolve]
  rw [hnorm]
  unfold process_message
  rw [parseHeader_ok ver nonce 1 id [] hid]
  have hips : ∀ a ∈ (((rows.filter (fun r => decide (r.id = Value.blob id))).filter
      (liveAt now)).map rowToAddr), a.ip.length = 16 ∧ a.signature.length = 64 := by
    intro a ha
    obtain ⟨r, hrf, rfl⟩ := List.mem_map.mp ha
    exact rowToAddr_wire_lengths r (hwf r (List.mem_filter.mp (List.mem_filter.mp hrf).1).1)
  simp only [select_addresses_of_wf rows id now hwf, bind,
    writeBytes_ok_of_le [] (beBytes 4 (beNat (beBytes 4 nonce)))
      (by simp [beBytes_length, RESPONSE_LEN]),
    ebind_ok, List.nil_append]
  rw [writeBytes_ok_of_le (beBytes 4 (beNat (beBytes 4 nonce))) [1]
    (by simp [beBytes_length, RESPONSE_LEN])]
  simp only [ebind_ok]
  rw [writeBytes_ok_of_le (beBytes 4 (beNat (beBytes 4 nonce)) ++ [1])
    [(((rows.filter (fun r => decide (r.id = Value.blob id))).filter
      (liveAt now)).map rowToAddr).length % 256]
    (by simp [beBytes_length, RESPONSE_LEN])]
  simp only [ebind_ok]
  rw [write_addrs_overflow _ _ hips (by simp [beBytes_length, RESPONSE_LEN])
    (by simp only [List.length_append, List.length_cons, List.length_nil, List.length_map,
          beBytes_length]
        omega)]

/-- Eleven distinct live addresses registered under `cid`; their resolve
records need 6 + 11 * 95 = 1051 bytes, more than the 1024-byte buffer. -/
def c9row (i : Nat) : Row :=
  { id := Value.blob cid, ip := Value.blob (List.replicate 15 0 ++ [i]),
    signature := Value.blob csig, port := Value.int 5050, priority := Value.int 1,
    client := Value.int 7, timestamp := Value.int (cnow : Int), ttl := Value.int 86400 }

def c9rows : List Row := (List.range 11).map c9row

set_option maxRecDepth 4000 in
/-- C9 (counterexample): with 11 live records for one identity the code
does not produce a truncated response — the record loop hits the end of
the 1024-byte buffer, `write_all` fails with `WriteZero`, and the whole
resolve is dropped with no datagram sent. -/
theorem claim_C9_counterexample_overflow_drops_response :
    process_message (fun _ _ _ => true) (Except.ok DbState.done) c9rows cnow
      (encodeResolve 4 9 cid) = (Except.error Err.writeZero, c9rows) := by rfl

/-- C9 (amended): any response `process_message` actually produces fits
the fixed 1024-byte buffer, but an overflowing resolve is not truncated:
it fails with `WriteZero` and no response datagram is sent (the store is
still untouched). -/
theorem claim_C9_amended_response_bounded
    (verify : List Nat → List Nat → List Nat → Bool) (o : StepOutcome)
    (rows : List Row) (now : Nat) (data resp : List Nat) (rows2 : List Row)
    (ver nonce : Nat) (id : List Nat) :
    (process_message verify o rows now data = (Except.ok resp, rows2) →
      resp.length ≤ RESPONSE_LEN) ∧
    (id.length = 32 → (∀ r ∈ rows, wfRow r = true) →
      RESPONSE_LEN < 6 + 95 * (((rows.filter (fun r => decide (r.id = Value.blob id))).filter
        (liveAt now)).length) →
      process_message verify o rows now (encodeResolve ver nonce id) =
        (Except.error Err.writeZero, rows)) :=
  ⟨fun h => process_ok_length verify o rows now data resp rows2 h,
   fun hid hwf hov => resolve_overflow verify o rows now ver nonce id hid hwf hov⟩

/-- Witness for the amended C9: a resolve on an empty store yields the
6-byte `count = 0` response, within the buffer; and the 11-record
overflow case from the counterexample input is dropped. -/
theorem claim_C9_amended_witness :
    ([0, 0, 0, 9, 1, 0] : List Nat).length ≤ RESPONSE_LEN ∧
    process_message (fun _ _ _ => true) (Except.ok DbState.done) c9rows cnow
      (encodeResolve 4 9 cid) = (Except.error Err.writeZero, c9rows) :=
  ⟨(claim_C9_amended_response_bounded (fun _ _ _ => true) (Except.ok DbState.done) [] cnow
      (encodeResolve 4 9 cid) [0, 0, 0, 9, 1, 0] [] 4 9 cid).1 (by rfl),
   (claim_C9_amended_response_bounded (fun _ _ _ => true) (Except.ok DbState.done) c9rows cnow
      (encodeResolve 4 9 cid) [] c9rows 4 9 cid).2 (by decide) (by decide) (by decide)⟩

end Mimir
